import Mathlib

/-!
Shallow embedding of the hello-fargate end-to-end test runners and sample
applications, and proofs about the polling, correlation, cleanup, log-fetch,
worker and handler logic.

The external AWS calls (DescribeExecution, ListExecutions, DescribeLogStreams,
GetLogEvents, DeleteMessage, ...) are modelled as oracles passed in as
function arguments: an oracle maps the index of the call to the response the
backend would return (`Except Unit r`, where `.error ()` stands for a failed
call of any kind, network and throttling errors included).  Unbounded Go
`for` loops are modelled with an explicit fuel argument counting loop
iterations: a result of `none` means the loop is still running after that
many iterations.
-/

set_option maxRecDepth 4000

namespace HelloFargate

/-! ## Step Functions execution status (workflow test-runner, monitorExecution) -/

/-- Step Functions execution status vocabulary (sfn/types.ExecutionStatus). -/
inductive SfnStatus
  | running
  | succeeded
  | failed
  | timedOut
  | aborted
  | pendingRedrive
deriving DecidableEq, Repr

/-- The terminal-state check of monitorExecution: the loop breaks exactly on
SUCCEEDED, FAILED, TIMED_OUT or ABORTED. -/
def SfnStatus.isTerminal : SfnStatus → Bool
  | .succeeded => true
  | .failed => true
  | .timedOut => true
  | .aborted => true
  | _ => false

/-- Observable outcome of the monitorExecution polling loop: either the loop
returned an error because a DescribeExecution call failed, or it broke out of
the loop with the status it observed.  The source has no deadline and no
deadline-exceeded outcome. -/
inductive MonitorOutcome
  | describeError
  | finished (s : SfnStatus)
deriving DecidableEq, Repr

/-- The polling loop of monitorExecution (workflow test-runner): repeatedly
DescribeExecution; on error return the error immediately; break when the
status is terminal; otherwise sleep 5s and loop.  `describe i` is the response
of the i-th DescribeExecution call; `fuel` bounds how many iterations we
observe (`none` = still looping after `fuel` iterations). -/
def monitorExecution (describe : Nat → Except Unit SfnStatus) : Nat → Nat → Option MonitorOutcome
  | 0, _ => none
  | fuel + 1, i =>
    match describe i with
    | .error _ => some .describeError
    | .ok s => if s.isTerminal then some (.finished s) else monitorExecution describe fuel (i + 1)

/-! ## One-off ECS task wait loop (oneoff test-runner main) -/

/-- Observable outcome of the one-off task wait loop.  `describe i` returning
`.ok none` models a DescribeTasks response with an empty Tasks list
(log.Fatalf "Task not found"); `.ok (some st)` models the task's LastStatus
string. -/
inductive OneoffOutcome
  | describeError
  | taskNotFound
  | stopped
deriving DecidableEq, Repr

/-- The wait loop of the one-off task runner: DescribeTasks every 5s, fatal on
error or missing task, break only when LastStatus is "STOPPED".  No deadline
exists in the source. -/
def oneoffWaitLoop (describe : Nat → Except Unit (Option String)) : Nat → Nat → Option OneoffOutcome
  | 0, _ => none
  | fuel + 1, i =>
    match describe i with
    | .error _ => some .describeError
    | .ok none => some .taskNotFound
    | .ok (some st) =>
      if st = "STOPPED" then some .stopped else oneoffWaitLoop describe fuel (i + 1)

/-! ## AWS Batch array-job wait loop (batchjobs test-runner main) -/

/-- AWS Batch job status vocabulary (batch/types.JobStatus). -/
inductive JobStatus
  | submitted
  | pending
  | runnable
  | starting
  | running
  | succeeded
  | failed
deriving DecidableEq, Repr

/-- The terminal-state check of the batch wait loop: SUCCEEDED or FAILED. -/
def JobStatus.isTerminal : JobStatus → Bool
  | .succeeded => true
  | .failed => true
  | _ => false

/-- Observable outcome of the batch wait loop.  `.timeout` models the
`time.Since(startTime) > *timeout` branch, which prints diagnostics and fails
with "Timeout waiting for job to complete". -/
inductive BatchOutcome
  | timeout
  | describeError
  | jobNotFound
  | finished (s : JobStatus)
deriving DecidableEq, Repr

/-- The wait loop of the batch array-job runner: at the top of each iteration
check whether elapsed time exceeds the timeout (both in seconds); then
DescribeJobs (fatal on error or empty Jobs list); break on a terminal status;
otherwise sleep 5 seconds and loop.  `elapsed` carries `time.Since(startTime)`
in seconds, advancing by the 5-second poll sleep each iteration. -/
def batchWaitLoop (describe : Nat → Except Unit (Option JobStatus)) (timeout : Nat) :
    Nat → Nat → Nat → Option BatchOutcome
  | 0, _, _ => none
  | fuel + 1, i, elapsed =>
    if timeout < elapsed then some .timeout
    else
      match describe i with
      | .error _ => some .describeError
      | .ok none => some .jobNotFound
      | .ok (some s) =>
        if s.isTerminal then some (.finished s)
        else batchWaitLoop describe timeout fuel (i + 1) (elapsed + 5)

/-! ## Correlation of handle-less submissions (executeViaEventBridge /
executeViaScheduledTrigger, workflow test-runner) -/

/-- One entry of a ListExecutions response: execution ARN and start date
(epoch seconds). -/
structure ExecListItem where
  arn : String
  startDate : Int
deriving DecidableEq, Repr

/-- The inner scan of the correlation loops: walk the ListExecutions response
in order and return the first execution accepted by the time-window check
(the Go for-range returns from inside the loop at the first match). -/
def findMatching (accept : ExecListItem → Bool) : List ExecListItem → Option ExecListItem
  | [] => none
  | e :: rest => if accept e then some e else findMatching accept rest

/-- Result of a correlation loop.  `timedOut` is the fall-through
"execution not found after %d attempts" error; `listError` is the immediate
"failed to list executions" error return. -/
inductive CorrelateResult
  | found (arn : String)
  | listError
  | timedOut
deriving DecidableEq, Repr

/-- Correlation loop body, structured on the remaining attempts.  `lists i` is
the ListExecutions response of attempt `i`; `accept i` is the time-window
check evaluated during attempt `i`.  The second component counts the
list-and-scan attempts actually performed. -/
def correlateAux (accept : Nat → ExecListItem → Bool)
    (lists : Nat → Except Unit (List ExecListItem)) : Nat → Nat → CorrelateResult × Nat
  | 0, _ => (.timedOut, 0)
  | rem + 1, i =>
    match lists i with
    | .error _ => (.listError, 1)
    | .ok l =>
      match findMatching (accept i) l with
      | some e => (.found e.arn, 1)
      | none =>
        let r := correlateAux accept lists rem (i + 1)
        (r.1, r.2 + 1)

/-- The correlation loop `for i := 0; i < maxAttempts; i++ { list; scan; sleep }`
shared (with different windows and attempt counts) by the eventbridge and
scheduled modes. -/
def correlate (accept : Nat → ExecListItem → Bool)
    (lists : Nat → Except Unit (List ExecListItem)) (maxAttempts : Nat) : CorrelateResult × Nat :=
  correlateAux accept lists maxAttempts 0

/-- Time-window check of the eventbridge mode: `time.Since(StartDate) < 30s`,
i.e. the execution started within the last 30 seconds of the clock value
`now i` observed during attempt `i` (seconds). -/
def ebAccept (now : Nat → Int) (i : Nat) (e : ExecListItem) : Bool :=
  now i - e.startDate < 30

/-- The correlation phase of executeViaEventBridge: maxAttempts = 10. -/
def executeViaEventBridgeCorrelate (now : Nat → Int)
    (lists : Nat → Except Unit (List ExecListItem)) : CorrelateResult × Nat :=
  correlate (ebAccept now) lists 10

/-- Time-window check of the scheduled mode:
`StartDate.After(scheduleTime - 30s) && StartDate.Before(scheduleTime + 2min)`
(strict on both sides, seconds). -/
def schedAccept (scheduleTime : Int) (_ : Nat) (e : ExecListItem) : Bool :=
  scheduleTime - 30 < e.startDate && e.startDate < scheduleTime + 120

/-- The correlation phase of executeViaScheduledTrigger: maxAttempts = 20. -/
def executeViaScheduledCorrelate (scheduleTime : Int)
    (lists : Nat → Except Unit (List ExecListItem)) : CorrelateResult × Nat :=
  correlate (schedAccept scheduleTime) lists 20

/-! ## executeViaScheduledTrigger: rule lifecycle and cleanup -/

/-- EventBridge write calls issued by executeViaScheduledTrigger, in order. -/
inductive EBAction
  | putRule (name : String)
  | putTargets (rule : String)
  | removeTargets (rule : String)
  | deleteRule (name : String)
deriving DecidableEq, Repr

/-- Error outcomes of executeViaScheduledTrigger. -/
inductive SchedError
  | putRuleFailed
  | noExistingRule
  | noRoleFound
  | putTargetsFailed
  | targetEntryFailed
  | listExecutionsFailed
  | notFoundAfterAttempts (n : Nat)
deriving DecidableEq, Repr

/-- Responses of the external EventBridge / Step Functions backend consumed by
executeViaScheduledTrigger, in the order the source consults them:
PutRule, ListRules (names matching the "fargate-workflow-schedule-rule"
name filter), ListTargetsByRule (role ARNs of the existing rule's targets),
PutTargets (FailedEntryCount, length of FailedEntries), and the
ListExecutions responses of the correlation loop. -/
structure SchedEnv where
  putRuleOk : Bool
  listRulesResult : Except Unit (List String)
  listTargetsResult : Except Unit (List String)
  putTargetsResult : Except Unit (Nat × Nat)
  listExecutions : Nat → Except Unit (List ExecListItem)

/-- executeViaScheduledTrigger, as a function from the backend responses to
(result, trace of EventBridge write calls).  Mirrors the source's control
flow: each early error return after a successful PutRule calls DeleteRule
explicitly; once PutTargets has succeeded, the deferred cleanup
(RemoveTargets then DeleteRule) runs on every remaining return path. -/
def executeViaScheduledTrigger (env : SchedEnv) (ruleName : String) (scheduleTime : Int) :
    Except SchedError String × List EBAction :=
  if env.putRuleOk = false then
    (.error .putRuleFailed, [.putRule ruleName])
  else
    match env.listRulesResult with
    | .error _ => (.error .noExistingRule, [.putRule ruleName, .deleteRule ruleName])
    | .ok rules =>
      if rules.length = 0 then
        (.error .noExistingRule, [.putRule ruleName, .deleteRule ruleName])
      else
        match env.listTargetsResult with
        | .error _ => (.error .noRoleFound, [.putRule ruleName, .deleteRule ruleName])
        | .ok tgts =>
          if tgts.length = 0 then
            (.error .noRoleFound, [.putRule ruleName, .deleteRule ruleName])
          else
            match env.putTargetsResult with
            | .error _ =>
              (.error .putTargetsFailed,
               [.putRule ruleName, .putTargets ruleName, .deleteRule ruleName])
            | .ok (failedCount, failedEntries) =>
              if 0 < failedCount ∧ 0 < failedEntries then
                (.error .targetEntryFailed,
                 [.putRule ruleName, .putTargets ruleName, .deleteRule ruleName])
              else
                let r := executeViaScheduledCorrelate scheduleTime env.listExecutions
                let res : Except SchedError String :=
                  match r.1 with
                  | .found arn => .ok arn
                  | .listError => .error .listExecutionsFailed
                  | .timedOut => .error (.notFoundAfterAttempts 20)
                (res,
                 [.putRule ruleName, .putTargets ruleName,
                  .removeTargets ruleName, .deleteRule ruleName])

/-! ## One-off task application (usecases/oneoff/apps/task/main.go) -/

/-- Parsed TASK_INPUT.  The `data` field is an opaque generic payload. -/
structure TaskInput where
  message : String
  data : List (String × String)
deriving DecidableEq, Repr

/-- The task's output record. -/
structure TaskOutput where
  status : String
  message : String
  input : List (String × String)
deriving DecidableEq, Repr

/-- The processing step of the one-off task: echo the message with a
"Processed: " marker and a "success" status; a missing message gets the
fallback text. -/
def taskProcess (ti : TaskInput) : TaskOutput :=
  let output : TaskOutput :=
    { status := "success", message := "Processed: " ++ ti.message, input := ti.data }
  if ti.message = "" then
    { output with message := "Processed successfully (no message provided)" }
  else
    output

/-! ## Batch worker application (usecases/batchjobs/apps/batchworker/main.go) -/

/-- Parsed JOB_INPUT. -/
structure JobInput where
  message : String
  items : List String
  data : List (String × String)
deriving DecidableEq, Repr

/-- The batch worker's output record. -/
structure JobOutput where
  status : String
  message : String
  arrayIndex : String
  jobID : String
  input : List (String × String)
deriving DecidableEq, Repr

/-- Value of a digit run, most significant first. -/
def digitsVal (cs : List Char) : Nat :=
  cs.foldl (fun a c => a * 10 + (c.toNat - 48)) 0

/-- `fmt.Sscanf(s, "%d", &idx)`: skip leading spaces, read an optionally
signed decimal integer from the front of the string; when no digits can be
read, `idx` keeps its zero value 0. -/
def sscanfInt (s : String) : Int :=
  match s.data.dropWhile (fun c => c = ' ') with
  | '-' :: rest =>
    let ds := rest.takeWhile Char.isDigit
    if ds.isEmpty then 0 else -(digitsVal ds : Int)
  | '+' :: rest =>
    let ds := rest.takeWhile Char.isDigit
    if ds.isEmpty then 0 else (digitsVal ds : Int)
  | cs =>
    let ds := cs.takeWhile Char.isDigit
    if ds.isEmpty then 0 else (digitsVal ds : Int)

/-- processJob of the batch worker.  For an array job (non-empty
AWS_BATCH_JOB_ARRAY_INDEX and non-empty items) the worker processes the item
at the parsed index; an index beyond the items produces the out-of-range
message.  A negative parsed index would be a Go slice-index panic, modelled as
`none`. -/
def processJob (arrayIndex jobID : String) (input : JobInput) : Option JobOutput :=
  let base : JobOutput :=
    { status := "success", message := "", arrayIndex := arrayIndex,
      jobID := jobID, input := input.data }
  if arrayIndex ≠ "" ∧ 0 < input.items.length then
    let idx := sscanfInt arrayIndex
    if idx < (input.items.length : Int) then
      if 0 ≤ idx then
        some { base with
          message := "Processed item[" ++ toString idx ++ "]: "
            ++ input.items.getD idx.toNat "" }
      else none
    else
      some { base with
        message := "Array index " ++ toString idx ++ " out of range (items: "
          ++ toString input.items.length ++ ")" }
  else if input.message ≠ "" then
    some { base with message := "Processed: " ++ input.message ++ " (index: " ++ arrayIndex ++ ")" }
  else
    some { base with message := "Processed successfully (array index: " ++ arrayIndex ++ ")" }

/-! ## Background queue worker (backgroundjobs worker, processMessage) -/

/-- Does the character list start with the pattern? -/
def charsStartWith : List Char → List Char → Bool
  | _, [] => true
  | [], _ :: _ => false
  | c :: cs, p :: ps => c = p && charsStartWith cs ps

/-- Does the character list contain the pattern as a contiguous run? -/
def charsContain (pat : List Char) : List Char → Bool
  | [] => pat.isEmpty
  | c :: rest => charsStartWith (c :: rest) pat || charsContain pat rest

/-- Substring containment, `strings.Contains`. -/
def containsSubstr (s pat : String) : Bool :=
  charsContain pat.data s.data

/-- Parsed JobMessage fields relevant to the worker's result (the payload is
opaque). -/
structure JobMessage where
  jobID : String
  action : String
deriving DecidableEq, Repr

/-- How the message body parses under encoding/json (external library,
supplied as an oracle): as a JobMessage, as generic JSON only (the JobMessage
fields stay at their zero values and only the payload is filled), or not as
JSON at all (the body is merely logged). -/
inductive BodyParse
  | job (j : JobMessage)
  | genericOnly
  | unparsable
deriving DecidableEq, Repr

/-- A received SQS message. -/
structure SqsMessage where
  messageId : String
  body : String
deriving DecidableEq, Repr

/-- The worker's logged job result. -/
structure JobResult where
  jobID : String
  status : String
  message : String
deriving DecidableEq, Repr

/-- Observable outcome of processMessage: the logged JobResult, whether the
DeleteMessage call succeeded (the message is gone from the queue), and whether
processMessage returned an error (in which case pollAndProcess leaves the
message and it will be redelivered). -/
structure ProcessOutcome where
  result : JobResult
  deleteAttempted : Bool
  deleted : Bool
  errored : Bool
deriving DecidableEq, Repr

/-- processMessage of the queue worker: parse the body (parse failures only
log a warning and fall back to a generic payload), always build and log a
"success" JobResult (with the message id as fallback job id and an
action-derived message), then delete the message; the only error return is a
failed DeleteMessage call. -/
def processMessage (msg : SqsMessage) (parse : BodyParse) (deleteOk : Bool) : ProcessOutcome :=
  let job : JobMessage :=
    match parse with
    | .job j => j
    | _ => { jobID := "", action := "" }
  let r : JobResult :=
    { jobID := job.jobID, status := "success", message := "Job processed successfully" }
  let r := if job.jobID = "" then { r with jobID := msg.messageId } else r
  let r := if job.action ≠ "" then { r with message := "Processed action: " ++ job.action } else r
  { result := r, deleteAttempted := true, deleted := deleteOk, errored := !deleteOk }

/-! ## Log fetchers (oneoff fetchLogs, batchjobs fetchLogs, sqstest
checkJobInLogs) -/

/-- Outcome of the one-off runner's fetchLogs: a DescribeLogStreams failure
(warning + return), zero streams ("No log streams found" + return), a
GetLogEvents failure on the first stream (warning + return), or the events of
the first stream. -/
inductive FetchResult
  | listFailed
  | noStreams
  | eventsFailed
  | events (msgs : List String)
deriving DecidableEq, Repr

/-- fetchLogs of the one-off task runner: list the streams of the task's log
group under the task-id stream name; warn-and-return on a listing failure or
an events failure, report when no streams exist, otherwise print the first
stream's events. -/
def fetchLogs (streamsResult : Except Unit (List String))
    (eventsOf : String → Except Unit (List String)) : FetchResult :=
  match streamsResult with
  | .error _ => .listFailed
  | .ok [] => .noStreams
  | .ok (s :: _) =>
    match eventsOf s with
    | .error _ => .eventsFailed
    | .ok evs => .events evs

/-- One DescribeLogStreams entry of the batch runner's fetchLogs. -/
structure StreamInfo where
  name : String
  lastEventTimestamp : Option Int
deriving DecidableEq, Repr

/-- isRecentStream of the batch runner: last event within the past 5 minutes
(timestamps in milliseconds). -/
def isRecentStream (now : Int) (s : StreamInfo) : Bool :=
  match s.lastEventTimestamp with
  | none => false
  | some t => now - t < 5 * 60 * 1000

/-- Outcome of the batch runner's fetchLogs: listing failure, zero streams, or
the per-stream GetLogEvents results of the selected streams. -/
inductive BatchFetchResult
  | listFailed
  | noStreams
  | fetched (streams : List (String × Except Unit (List String)))
deriving Repr

/-- fetchLogs of the batch array-job runner: list streams, warn-and-return on
failure, report zero streams; otherwise pick the streams whose name contains
the job id or that saw an event in the last 5 minutes, falling back to the
first min(arraySize, count) streams, and fetch each one's events
(a per-stream failure only warns and continues). -/
def batchFetchLogs (now : Int) (jobID : String) (arraySize : Nat)
    (streamsResult : Except Unit (List StreamInfo))
    (eventsOf : String → Except Unit (List String)) : BatchFetchResult :=
  match streamsResult with
  | .error _ => .listFailed
  | .ok [] => .noStreams
  | .ok streams =>
    let relevant :=
      (streams.filter (fun st => containsSubstr st.name jobID || isRecentStream now st)).map
        StreamInfo.name
    let chosen :=
      if relevant.isEmpty then
        (streams.take (min arraySize streams.length)).map StreamInfo.name
      else relevant
    .fetched (chosen.map (fun n => (n, eventsOf n)))

/-- The per-stream event scan of checkJobInLogs, with the foundJobID flag:
a record containing the job id sets the flag; with the flag set, a record
containing the success sentinel ends the search positively; a record starting
a different job resets the flag. -/
def scanEvents (jobID : String) : List String → Bool → Bool
  | [], _ => false
  | msg :: rest, found =>
    let found := found || containsSubstr msg jobID
    if found && containsSubstr msg "\"status\": \"success\"" then true
    else
      let found :=
        if containsSubstr msg "Processing message:" && !containsSubstr msg jobID then false
        else found
      scanEvents jobID rest found

/-- One page of a paginated DescribeLogStreams listing: the streams (each with
its GetLogEvents result) and the NextToken. -/
structure LogPage where
  streams : List String
  next : Option Nat
deriving Repr

/-- Pagination loop of checkJobInLogs: fetch a page (a listing failure warns
and reports not-found), scan every stream of the page (a GetLogEvents failure
skips the stream), and follow NextToken until absent.  Fuel bounds the pages
followed. -/
def checkPages (jobID : String) (pages : Nat → Except Unit LogPage)
    (eventsOf : String → Except Unit (List String)) : Nat → Nat → Bool
  | 0, _ => false
  | fuel + 1, tok =>
    match pages tok with
    | .error _ => false
    | .ok pg =>
      if pg.streams.any (fun st =>
          match eventsOf st with
          | .error _ => false
          | .ok evs => scanEvents jobID evs false) then
        true
      else
        match pg.next with
        | none => false
        | some t => checkPages jobID pages eventsOf fuel t

/-- checkJobInLogs of the sqstest runner: page through the log group's streams
looking for the job id followed by the success sentinel; `false` means
not-found (never a crash). -/
def checkJobInLogs (jobID : String) (pages : Nat → Except Unit LogPage)
    (eventsOf : String → Except Unit (List String)) (fuel : Nat) : Bool :=
  checkPages jobID pages eventsOf fuel 0

/-! ## HTTP handlers and authentication tests (webapi app + test, webapp
test) -/

/-- An HTTP response as produced by the sample handlers: the status code
(Go's ResponseWriter defaults to 200 when the body is written without an
explicit WriteHeader) and the encoded JSON object as a field list. -/
structure HandlerResponse where
  statusCode : Nat
  contentType : String
  body : List (String × String)
deriving DecidableEq, Repr

/-- healthHandler of the webapi (JWT variant) server: 200 with
status/server_id JSON. -/
def healthHandler (serverID : String) : HandlerResponse :=
  { statusCode := 200, contentType := "application/json",
    body := [("status", "healthy"), ("server_id", serverID)] }

/-- healthHandler of the webapp (session-cookie variant) server: identical
200 with status/server_id JSON. -/
def webappHealthHandler (serverID : String) : HandlerResponse :=
  { statusCode := 200, contentType := "application/json",
    body := [("status", "healthy"), ("server_id", serverID)] }

/-- testUnauthenticated of the webapi (JWT) test-runner: the check passes
exactly when the unauthenticated request to the protected path came back 401. -/
def testUnauthenticated (status : Nat) : Except String Unit :=
  if status ≠ 401 then .error ("expected 401, got " ++ toString status)
  else .ok ()

/-- testUnauthenticatedRedirect of the webapp (session-cookie) test-runner:
the check passes exactly when the unauthenticated request to the protected
path came back 302 with a Location on the Cognito login domain. -/
def testUnauthenticatedRedirect (status : Nat) (location : String) : Except String Unit :=
  if status ≠ 302 then .error "expected 302 redirect"
  else if !containsSubstr location "amazoncognito.com" then .error "redirect not to Cognito"
  else .ok ()

/-- A concrete DescribeExecution trace: the first call fails (a transient
network/throttling failure), every later call would report SUCCEEDED. -/
def errThenSucceed : Nat → Except Unit SfnStatus
  | 0 => .error ()
  | _ + 1 => .ok .succeeded

/-! ## Spec-side definition for the correlation tie-break (claim C5) -/

/-- The tie-break policy as the spec words it: among the candidates accepted
by the window, the one with the latest (largest) start time. -/
def specLatestInWindow (accept : ExecListItem → Bool) (l : List ExecListItem) :
    Option ExecListItem :=
  (l.filter accept).foldl
    (fun acc e =>
      match acc with
      | none => some e
      | some a => if a.startDate < e.startDate then some e else some a)
    none

/-! ## Helper lemmas on the wait loops -/

/-- monitorExecution only breaks with a status the terminal check accepts. -/
theorem monitorExecution_finished_terminal (describe : Nat → Except Unit SfnStatus) :
    ∀ fuel i s, monitorExecution describe fuel i = some (.finished s) → s.isTerminal = true := by
  intro fuel
  induction fuel with
  | zero => intro i s h; cases h
  | succ n ih =>
    intro i s h
    unfold monitorExecution at h
    split at h
    · simp at h
    · split at h
      · simp only [Option.some.injEq, MonitorOutcome.finished.injEq] at h
        subst h
        assumption
      · exact ih (i + 1) s h

/-- On a describe trace that never reports a terminal status, monitorExecution
is still looping after any number of iterations. -/
theorem monitorExecution_nonterminal_none (describe : Nat → Except Unit SfnStatus)
    (h : ∀ j, ∃ s, describe j = .ok s ∧ s.isTerminal = false) :
    ∀ fuel i, monitorExecution describe fuel i = none := by
  intro fuel
  induction fuel with
  | zero => intro i; rfl
  | succ n ih =>
    intro i
    obtain ⟨s, hs, hterm⟩ := h i
    unfold monitorExecution
    rw [hs]
    show (if s.isTerminal = true then some (MonitorOutcome.finished s)
          else monitorExecution describe n (i + 1)) = none
    rw [if_neg (by simp [hterm])]
    exact ih (i + 1)

/-- On a describe trace that never reports "STOPPED", the one-off wait loop is
still looping after any number of iterations. -/
theorem oneoffWaitLoop_nonstopped_none (describe : Nat → Except Unit (Option String))
    (h : ∀ j, ∃ st, describe j = .ok (some st) ∧ st ≠ "STOPPED") :
    ∀ fuel i, oneoffWaitLoop describe fuel i = none := by
  intro fuel
  induction fuel with
  | zero => intro i; rfl
  | succ n ih =>
    intro i
    obtain ⟨st, hs, hstop⟩ := h i
    unfold oneoffWaitLoop
    rw [hs]
    show (if st = "STOPPED" then some OneoffOutcome.stopped
          else oneoffWaitLoop describe n (i + 1)) = none
    rw [if_neg hstop]
    exact ih (i + 1)

/-- The batch wait loop's deadline: on a describe trace that never reports a
terminal status, once enough 5-second polls fit under the fuel bound, the loop
returns the timeout failure. -/
theorem batchWaitLoop_timeout (describe : Nat → Except Unit (Option JobStatus)) (timeout : Nat)
    (h : ∀ j, ∃ s, describe j = .ok (some s) ∧ s.isTerminal = false) :
    ∀ f i e, timeout < e + 5 * f → batchWaitLoop describe timeout (f + 1) i e = some .timeout := by
  intro f
  induction f with
  | zero =>
    intro i e he
    unfold batchWaitLoop
    rw [if_pos (by omega)]
  | succ n ih =>
    intro i e he
    by_cases hlt : timeout < e
    · unfold batchWaitLoop
      rw [if_pos hlt]
    · obtain ⟨s, hs, hterm⟩ := h i
      unfold batchWaitLoop
      rw [if_neg hlt, hs]
      show (if s.isTerminal = true then some (BatchOutcome.finished s)
            else batchWaitLoop describe timeout (n + 1) (i + 1) (e + 5)) = some .timeout
      rw [if_neg (by simp [hterm])]
      exact ih (i + 1) (e + 5) (by omega)

/-- The batch wait loop only breaks with a status its terminal check accepts. -/
theorem batchWaitLoop_finished_terminal (describe : Nat → Except Unit (Option JobStatus))
    (timeout : Nat) :
    ∀ fuel i e s, batchWaitLoop describe timeout fuel i e = some (.finished s) →
      s.isTerminal = true := by
  intro fuel
  induction fuel with
  | zero => intro i e s h; cases h
  | succ n ih =>
    intro i e s h
    unfold batchWaitLoop at h
    split at h
    · simp at h
    · split at h
      · simp at h
      · simp at h
      · split at h
        · simp only [Option.some.injEq, BatchOutcome.finished.injEq] at h
          subst h
          assumption
        · exact ih (i + 1) (e + 5) s h

/-! ## Claim theorems -/

/-- Claim C1, counterexample to the claim as stated: monitorExecution takes no
deadline at all.  Against an execution that is still RUNNING at every
describe, the loop has produced no result after 100 polling iterations — in
particular it has not returned a deadline-exceeded failure (its outcome type,
taken from the source, has no such case), so a deadline shorter than the
time-to-terminal does not make it return DeadlineExceeded. -/
theorem C1_counterexample :
    monitorExecution (fun _ => .ok .running) 100 0 = none := by decide

/-- Claim C1 (amended): only the batch-job wait loop enforces a deadline — if
every describe reports a non-terminal status, it fails with its timeout
outcome as soon as the 5-second polls exhaust the budget.  The workflow
monitorExecution and the one-off task wait loop take no deadline and are still
looping after any number of polls of a non-terminal execution.  No loop ever
returns a non-terminal status as its success result. -/
theorem C1_amended_wait_loops (describeS : Nat → Except Unit SfnStatus)
    (describeO : Nat → Except Unit (Option String))
    (describeB : Nat → Except Unit (Option JobStatus)) (timeout : Nat) :
    (∀ fuel i s, monitorExecution describeS fuel i = some (.finished s) → s.isTerminal = true) ∧
    ((∀ j, ∃ s, describeS j = .ok s ∧ s.isTerminal = false) →
      ∀ fuel i, monitorExecution describeS fuel i = none) ∧
    ((∀ j, ∃ st, describeO j = .ok (some st) ∧ st ≠ "STOPPED") →
      ∀ fuel i, oneoffWaitLoop describeO fuel i = none) ∧
    ((∀ j, ∃ s, describeB j = .ok (some s) ∧ s.isTerminal = false) →
      ∀ f i e, timeout < e + 5 * f → batchWaitLoop describeB timeout (f + 1) i e = some .timeout) ∧
    (∀ fuel i e s, batchWaitLoop describeB timeout fuel i e = some (.finished s) →
      s.isTerminal = true) :=
  ⟨monitorExecution_finished_terminal describeS,
   fun h => monitorExecution_nonterminal_none describeS h,
   fun h => oneoffWaitLoop_nonstopped_none describeO h,
   fun h => batchWaitLoop_timeout describeB timeout h,
   batchWaitLoop_finished_terminal describeB timeout⟩

/-- Claim C1, witness: concrete always-RUNNING describe traces leave the
workflow and one-off loops still polling after 30 iterations, while the batch
loop with a 60-second timeout fails with its timeout outcome. -/
theorem C1_amended_wait_loops_witness :
    monitorExecution (fun _ => .ok .running) 30 0 = none ∧
    oneoffWaitLoop (fun _ => .ok (some "RUNNING")) 30 0 = none ∧
    batchWaitLoop (fun _ => .ok (some .running)) 60 14 0 0 = some .timeout := by
  have h := C1_amended_wait_loops (fun _ => .ok .running) (fun _ => .ok (some "RUNNING"))
    (fun _ => .ok (some .running)) 60
  exact ⟨h.2.1 (fun j => ⟨.running, rfl, rfl⟩) 30 0,
         h.2.2.1 (fun j => ⟨"RUNNING", rfl, by decide⟩) 30 0,
         h.2.2.2.1 (fun j => ⟨.running, rfl, rfl⟩) 13 0 0 (by norm_num)⟩

/-- Claim C2, counterexample to the claim as stated: a describe failure during
polling is not retried.  On a trace whose first DescribeExecution call fails
transiently and whose next call would already report SUCCEEDED, the loop
aborts with the describe error at once; had it retried the describe (started
one call later), it would have observed the terminal SUCCEEDED state. -/
theorem C2_counterexample :
    monitorExecution errThenSucceed 10 0 = some .describeError ∧
    monitorExecution errThenSucceed 10 1 = some (.finished .succeeded) := by
  constructor <;> decide

/-- Claim C2 (amended): in every wait loop a failed describe call aborts the
loop immediately with an error — the describe is not retried; the loops end
only on the first describe error, on observing a terminal state, or (batch
loop only) on deadline exhaustion. -/
theorem C2_amended_describe_error_aborts (describeS : Nat → Except Unit SfnStatus)
    (describeO : Nat → Except Unit (Option String))
    (describeB : Nat → Except Unit (Option JobStatus)) (timeout : Nat) :
    (∀ fuel i, describeS i = .error () →
      monitorExecution describeS (fuel + 1) i = some .describeError) ∧
    (∀ fuel i, describeO i = .error () →
      oneoffWaitLoop describeO (fuel + 1) i = some .describeError) ∧
    (∀ fuel i e, e ≤ timeout → describeB i = .error () →
      batchWaitLoop describeB timeout (fuel + 1) i e = some .describeError) := by
  refine ⟨fun fuel i h => ?_, fun fuel i h => ?_, fun fuel i e he h => ?_⟩
  · unfold monitorExecution
    rw [h]
  · unfold oneoffWaitLoop
    rw [h]
  · unfold batchWaitLoop
    rw [if_neg (by omega), h]

/-- Claim C2, witness: with every describe call failing, each loop aborts on
its first iteration. -/
theorem C2_amended_describe_error_aborts_witness :
    monitorExecution (fun _ => .error ()) 5 0 = some .describeError ∧
    oneoffWaitLoop (fun _ => .error ()) 5 0 = some .describeError ∧
    batchWaitLoop (fun _ => .error ()) 60 5 0 0 = some .describeError := by
  have h := C2_amended_describe_error_aborts (fun _ => .error ()) (fun _ => .error ())
    (fun _ => .error ()) 60
  exact ⟨h.1 4 0 rfl, h.2.1 4 0 rfl, h.2.2 4 0 0 (by norm_num) rfl⟩

/-! ## Helper lemmas on the correlation loop -/

/-- When nothing in the list passes the window check, the scan finds nothing. -/
theorem findMatching_eq_none (accept : ExecListItem → Bool) (l : List ExecListItem)
    (h : ∀ e ∈ l, accept e = false) : findMatching accept l = none := by
  induction l with
  | nil => rfl
  | cons e rest ih =>
    unfold findMatching
    rw [if_neg (by simp [h e (List.mem_cons_self e rest)])]
    exact ih (fun x hx => h x (List.mem_cons_of_mem e hx))

/-- When every listing succeeds and no listed execution passes the window
check, the correlation loop performs exactly its attempt budget and times
out. -/
theorem correlateAux_timeout (accept : Nat → ExecListItem → Bool)
    (lists : Nat → Except Unit (List ExecListItem))
    (h : ∀ i, ∃ l, lists i = .ok l ∧ ∀ e ∈ l, accept i e = false) :
    ∀ rem i, correlateAux accept lists rem i = (.timedOut, rem) := by
  intro rem
  induction rem with
  | zero => intro i; rfl
  | succ n ih =>
    intro i
    obtain ⟨l, hl, hnone⟩ := h i
    unfold correlateAux
    rw [hl]
    show (match findMatching (accept i) l with
          | some e => (CorrelateResult.found e.arn, 1)
          | none =>
            let r := correlateAux accept lists n (i + 1)
            (r.1, r.2 + 1)) = (.timedOut, n + 1)
    rw [findMatching_eq_none (accept i) l hnone, ih (i + 1)]

/-- The scan picks the first accepted candidate, and in a listing sorted by
descending start time that candidate's start time dominates every accepted
candidate. -/
theorem findMatching_is_max (accept : ExecListItem → Bool) :
    ∀ (l : List ExecListItem) (e : ExecListItem),
      l.Pairwise (fun a b => b.startDate ≤ a.startDate) →
      findMatching accept l = some e →
      ∀ x ∈ l, accept x = true → x.startDate ≤ e.startDate := by
  intro l
  induction l with
  | nil => intro e _ hf; cases hf
  | cons a rest ih =>
    intro e hp hf x hx hacc
    unfold findMatching at hf
    by_cases ha : accept a = true
    · rw [if_pos ha] at hf
      injection hf with he
      subst he
      rcases List.mem_cons.mp hx with rfl | hxr
      · exact le_refl _
      · exact (List.pairwise_cons.mp hp).1 x hxr
    · rw [if_neg ha] at hf
      rcases List.mem_cons.mp hx with rfl | hxr
      · exact absurd hacc ha
      · exact ih e (List.pairwise_cons.mp hp).2 hf x hxr hacc

/-- Claim C3: against a window that accepts no listed execution (and listings
that succeed), the eventbridge correlation performs exactly its 10
list-and-scan attempts and the scheduled correlation exactly its 20, and both
then fail with the correlation-timeout error — the attempt count is the
deterministic constant maxAttempts. -/
theorem C3_correlation_timeout (now : Nat → Int) (scheduleTime : Int)
    (listsEB listsSched : Nat → Except Unit (List ExecListItem))
    (hEB : ∀ i, ∃ l, listsEB i = .ok l ∧ ∀ e ∈ l, ebAccept now i e = false)
    (hS : ∀ i, ∃ l, listsSched i = .ok l ∧ ∀ e ∈ l, schedAccept scheduleTime i e = false) :
    executeViaEventBridgeCorrelate now listsEB = (.timedOut, 10) ∧
    executeViaScheduledCorrelate scheduleTime listsSched = (.timedOut, 20) :=
  ⟨correlateAux_timeout (ebAccept now) listsEB hEB 10 0,
   correlateAux_timeout (schedAccept scheduleTime) listsSched hS 20 0⟩

/-- Claim C3, witness: with every listing returning an empty page, both
correlation loops exhaust exactly their attempt budgets and time out. -/
theorem C3_correlation_timeout_witness :
    executeViaEventBridgeCorrelate (fun _ => 0) (fun _ => .ok []) = (.timedOut, 10) ∧
    executeViaScheduledCorrelate 0 (fun _ => .ok []) = (.timedOut, 20) :=
  C3_correlation_timeout (fun _ => 0) 0 (fun _ => .ok []) (fun _ => .ok [])
    (fun _ => ⟨[], rfl, by simp⟩) (fun _ => ⟨[], rfl, by simp⟩)

/-- Claim C4: in every run of the scheduled-trigger scenario in which the
temporary one-shot rule is successfully created, DeleteRule on that rule is
issued on every exit path — correlation success, correlation timeout, a
failed executions listing, a missing IAM role, and every PutTargets failure
alike. -/
theorem C4_scheduled_cleanup (env : SchedEnv) (ruleName : String) (scheduleTime : Int)
    (h : env.putRuleOk = true) :
    EBAction.deleteRule ruleName ∈ (executeViaScheduledTrigger env ruleName scheduleTime).2 := by
  unfold executeViaScheduledTrigger
  rw [h]
  simp only [Bool.true_eq_false, if_false]
  split
  · simp
  · split
    · simp
    · split
      · simp
      · split
        · simp
        · split
          · simp
          · split
            · simp
            · simp

/-- Claim C4, witness: a run whose PutRule succeeds but whose search for the
existing rule's IAM role fails still ends with the temporary rule deleted. -/
theorem C4_scheduled_cleanup_witness :
    EBAction.deleteRule "test-scheduled-trigger-1" ∈
      (executeViaScheduledTrigger
        { putRuleOk := true, listRulesResult := .error (), listTargetsResult := .error (),
          putTargetsResult := .error (), listExecutions := fun _ => .ok [] }
        "test-scheduled-trigger-1" 0).2 :=
  C4_scheduled_cleanup
    { putRuleOk := true, listRulesResult := .error (), listTargetsResult := .error (),
      putTargetsResult := .error (), listExecutions := fun _ => .ok [] }
    "test-scheduled-trigger-1" 0 rfl

/-- Claim C5, counterexample to the claim as stated: with two candidates both
inside the 30-second eventbridge window, listed oldest first, the correlation
returns the FIRST candidate in listing order ("exec-early", started at 190),
not the candidate with the latest start time ("exec-late", started at 205),
which is what the spec-side tie-break policy would select. -/
theorem C5_counterexample :
    (executeViaEventBridgeCorrelate (fun _ => 210)
      (fun _ => .ok [{ arn := "exec-early", startDate := 190 },
                     { arn := "exec-late", startDate := 205 }])).1
      = .found "exec-early" ∧
    specLatestInWindow (ebAccept (fun _ => 210) 0)
      [{ arn := "exec-early", startDate := 190 }, { arn := "exec-late", startDate := 205 }]
      = some { arn := "exec-late", startDate := 205 } := by
  constructor <;> decide

/-- Claim C5 (amended): the correlation selects the first candidate, in the
order the listing returns them, whose start time falls inside the window;
when the listing is sorted by descending start time this is a candidate whose
start time dominates every in-window candidate (i.e. the most recently
started one). -/
theorem C5_amended_first_match (lists : Nat → Except Unit (List ExecListItem))
    (accept : ExecListItem → Bool) (l : List ExecListItem) (e : ExecListItem) (k : Nat)
    (hl : lists 0 = .ok l)
    (hsorted : l.Pairwise (fun a b => b.startDate ≤ a.startDate))
    (hfind : findMatching accept l = some e) :
    (correlate (fun _ => accept) lists (k + 1)).1 = .found e.arn ∧
    ∀ x ∈ l, accept x = true → x.startDate ≤ e.startDate := by
  constructor
  · unfold correlate correlateAux
    rw [hl]
    show (match findMatching accept l with
          | some e => (CorrelateResult.found e.arn, 1)
          | none =>
            let r := correlateAux (fun _ => accept) lists k (0 + 1)
            (r.1, r.2 + 1)).1 = .found e.arn
    rw [hfind]
  · exact findMatching_is_max accept l e hsorted hfind

/-- Claim C5, witness: on a listing sorted newest first with both candidates
in the window, the first match is "exec-late" (started 205), and the other
in-window candidate indeed started no later. -/
theorem C5_amended_first_match_witness :
    (correlate (fun _ => ebAccept (fun _ => 210) 0)
      (fun _ => .ok [{ arn := "exec-late", startDate := 205 },
                     { arn := "exec-early", startDate := 190 }]) 10).1
      = .found "exec-late" ∧
    ExecListItem.startDate { arn := "exec-early", startDate := 190 } ≤
      ExecListItem.startDate { arn := "exec-late", startDate := 205 } := by
  have h := C5_amended_first_match
    (fun _ => .ok [{ arn := "exec-late", startDate := 205 },
                   { arn := "exec-early", startDate := 190 }])
    (ebAccept (fun _ => 210) 0)
    [{ arn := "exec-late", startDate := 205 }, { arn := "exec-early", startDate := 190 }]
    { arn := "exec-late", startDate := 205 } 9 rfl (by decide) (by decide)
  exact ⟨h.1, h.2 { arn := "exec-early", startDate := 190 } (by decide) (by decide)⟩

/-- Claim C6: the one-off task's output is a deterministic function of the
submitted payload — for every input whose message field is the non-empty m,
the output record's message field equals "Processed: " followed by m and its
status field is "success". -/
theorem C6_task_output (ti : TaskInput) (m : String) (hm : ti.message = m) (hne : m ≠ "") :
    (taskProcess ti).status = "success" ∧ (taskProcess ti).message = "Processed: " ++ m := by
  subst hm
  unfold taskProcess
  rw [if_neg hne]
  exact ⟨rfl, rfl⟩

/-- Claim C6, witness: the input message "Hello!" yields the record with
message "Processed: Hello!" and status "success". -/
theorem C6_task_output_witness :
    (taskProcess { message := "Hello!", data := [] }).status = "success" ∧
    (taskProcess { message := "Hello!", data := [] }).message = "Processed: Hello!" :=
  C6_task_output { message := "Hello!", data := [] } "Hello!" rfl (by decide)

/-- Claim C7: a batch child worker whose array-index environment string parses
to an index i inside the items list outputs status "success" and the message
"Processed item[i]: " followed by the i-th item. -/
theorem C7_array_output (s jobID : String) (input : JobInput) (i : Nat)
    (hparse : sscanfInt s = (i : Int)) (hs : s ≠ "") (hi : i < input.items.length) :
    processJob s jobID input = some
      { status := "success",
        message := "Processed item[" ++ toString i ++ "]: " ++ input.items.getD i "",
        arrayIndex := s, jobID := jobID, input := input.data } := by
  unfold processJob
  rw [if_pos ⟨hs, Nat.lt_of_le_of_lt (Nat.zero_le i) hi⟩, hparse,
    if_pos (by exact_mod_cast hi), if_pos (Int.natCast_nonneg i)]
  have h1 : toString (i : Int) = toString i := rfl
  have h2 : ((i : Int)).toNat = i := Int.toNat_natCast i
  rw [h1, h2]

/-- Claim C7, witness: an array job with items ["item-A", "item-B"] — the
child at index 0 outputs "Processed item[0]: item-A" and the child at index 1
outputs "Processed item[1]: item-B", both with status "success". -/
theorem C7_array_output_witness :
    processJob "0" "job-a" { message := "", items := ["item-A", "item-B"], data := [] }
      = some { status := "success", message := "Processed item[0]: item-A",
               arrayIndex := "0", jobID := "job-a", input := [] } ∧
    processJob "1" "job-b" { message := "", items := ["item-A", "item-B"], data := [] }
      = some { status := "success", message := "Processed item[1]: item-B",
               arrayIndex := "1", jobID := "job-b", input := [] } :=
  ⟨C7_array_output "0" "job-a" { message := "", items := ["item-A", "item-B"], data := [] } 0
      (by decide) (by decide) (by decide),
   C7_array_output "1" "job-b" { message := "", items := ["item-A", "item-B"], data := [] } 1
      (by decide) (by decide) (by decide)⟩

/-- Claim C8: on a log group with zero streams, all three log searches return
their not-found result instead of an error — the one-off fetchLogs reports
"no streams", the batch fetchLogs reports "no streams", and checkJobInLogs
answers false — and each is a pure function of the backend responses (no
state output), so calling it again is safe. -/
theorem C8_empty_log_group (eventsOf : String → Except Unit (List String))
    (jobID : String) (now : Int) (arraySize fuel : Nat) :
    fetchLogs (.ok []) eventsOf = .noStreams ∧
    batchFetchLogs now jobID arraySize (.ok []) eventsOf = .noStreams ∧
    checkJobInLogs jobID (fun _ => .ok { streams := [], next := none }) eventsOf (fuel + 1)
      = false :=
  ⟨rfl, rfl, rfl⟩

/-- Claim C9: both servers answer the unauthenticated health path with 200 and
a JSON body carrying the status and server_id fields, and the test-runners'
unauthenticated checks on a protected path accept exactly a 401 response in
the JWT variant and exactly a 302 redirect to the Cognito login domain in the
session-cookie variant. -/
theorem C9_auth_variants (serverID : String) (status : Nat) (location : String) :
    (healthHandler serverID).statusCode = 200 ∧
    (healthHandler serverID).body.lookup "status" = some "healthy" ∧
    (healthHandler serverID).body.lookup "server_id" = some serverID ∧
    (webappHealthHandler serverID).statusCode = 200 ∧
    (webappHealthHandler serverID).body.lookup "status" = some "healthy" ∧
    (webappHealthHandler serverID).body.lookup "server_id" = some serverID ∧
    (testUnauthenticated status = .ok () ↔ status = 401) ∧
    (testUnauthenticatedRedirect status location = .ok () ↔
      status = 302 ∧ containsSubstr location "amazoncognito.com" = true) := by
  refine ⟨rfl, rfl, rfl, rfl, rfl, rfl, ?_, ?_⟩
  · unfold testUnauthenticated
    by_cases h : status = 401 <;> simp [h]
  · unfold testUnauthenticatedRedirect
    by_cases h : status = 302
    · by_cases h2 : containsSubstr location "amazoncognito.com" = true <;> simp [h, h2]
    · simp [h]

/-- Claim C10: for every received message the queue worker logs a job result
with status "success" and issues the DeleteMessage call, regardless of how the
body parsed (a parse failure only downgrades to a warning and a generic
payload); the message survives in the queue exactly when that delete call
fails, which is also the only case in which processMessage returns an error. -/
theorem C10_worker_deletes (msg : SqsMessage) (parse : BodyParse) (deleteOk : Bool) :
    (processMessage msg parse deleteOk).result.status = "success" ∧
    (processMessage msg parse deleteOk).deleteAttempted = true ∧
    (processMessage msg parse deleteOk).deleted = deleteOk ∧
    ((processMessage msg parse deleteOk).errored = true ↔ deleteOk = false) := by
  unfold processMessage
  cases parse <;> cases deleteOk <;> dsimp only <;> split_ifs <;> simp

end HelloFargate
